import Mathlib

/-!
# Verification of the wayland-client-from-scratch protocol core

A shallow embedding of the repository's protocol layer: the primitive codec
(`WlString`, `WlArray`), the message envelope (`WlMessageHeader`, `WlMessage`),
the stream demultiplexer (`WlMessageIter`), the object namespace
(`WlObjectId`) and the event dispatch path for the display and registry
interfaces.  Byte buffers are modelled as `List Nat` (each entry one byte);
the platform's native byte order is modelled as little-endian, matching the
machines the client runs on.  Rust's fallible `TryFrom` conversions become
`Option`-returning functions, and `as uN` casts become `% 2^N`.
-/

namespace WaylandClient

/-- Rounds a byte count up to the next multiple of 4, from `roundup_4` in
`types/mod.rs` / `wlstring.rs` (`(number + 3) & !3`; for 4-alignment the mask
by `!3` is the same as discarding the remainder mod 4). -/
def roundup_4 (number : Nat) : Nat :=
  (number + 3) / 4 * 4

/-- Little-endian bytes of a 32-bit value (`u32::to_ne_bytes`). -/
def u32ToBytes (x : Nat) : List Nat :=
  [x % 256, x / 256 % 256, x / 65536 % 256, x / 16777216 % 256]

/-- Little-endian bytes of a 16-bit value (`u16::to_ne_bytes`). -/
def u16ToBytes (x : Nat) : List Nat :=
  [x % 256, x / 256 % 256]

/-- Reads a 32-bit little-endian value from the first four bytes of a buffer
(`u32::from_ne_bytes(buf[0..4].try_into())`); callers only invoke it after
checking the buffer holds at least four bytes, so the catch-all is unreachable
there. -/
def readU32 : List Nat → Nat
  | b0 :: b1 :: b2 :: b3 :: _ => b0 + 256 * b1 + 65536 * b2 + 16777216 * b3
  | _ => 0

/-- Reads a 16-bit little-endian value from the first two bytes of a buffer
(`u16::from_ne_bytes`). -/
def readU16 : List Nat → Nat
  | b0 :: b1 :: _ => b0 + 256 * b1
  | _ => 0

/-- Position of the first zero byte, from `iter().position(|&x| x == WL_NUL)`
in `WlString::try_from`. -/
def findNulIdx : List Nat → Option Nat
  | [] => none
  | b :: rest => if b = 0 then some 0 else (findNulIdx rest).map (· + 1)

/-- The decoded form of a Wayland protocol string, from `WlString` in
`wlstring.rs`: the `len` field as stored (a `u32`) and the content bytes. -/
structure WlString where
  len : Nat
  data : List Nat
deriving DecidableEq, Repr

/-- `WlString::buffer_len` (called `buffer_size` at its use site in
`global.rs`): the 4-byte length field plus the stored length. -/
def WlString.buffer_len (wls : WlString) : Nat :=
  4 + wls.len

/-- `impl From<String> for WlString`: the content bytes of the text together
with their count (`data.len() as u32`). -/
def WlString.fromContent (s : List Nat) : WlString :=
  { len := s.length % 4294967296, data := s }

/-- `impl From<WlString> for Vec<u8>`: length field, content, a NUL
terminator, then `resize` up to `roundup_4` of the current length with
zeros. -/
def WlString.toBytes (wls : WlString) : List Nat :=
  let result := u32ToBytes wls.len ++ wls.data ++ [0]
  result ++ List.replicate (roundup_4 result.length - result.length) 0

/-- `impl TryFrom<&[u8]> for WlString`: read the 4-byte length field, demand
that many further bytes, and scan exactly that span for the NUL terminator;
the content is everything strictly before it. -/
def WlString.tryFrom (buf : List Nat) : Option WlString :=
  if buf.length < 4 then none
  else
    let total_content_len := readU32 buf
    let buffer_len := 4 + total_content_len
    if buf.length < buffer_len then none
    else
      let content_section := (buf.drop 4).take total_content_len
      match findNulIdx content_section with
      | some null_pos => some { len := total_content_len, data := content_section.take null_pos }
      | none => none

/-- The decoded form of a Wayland protocol array, from `WlArray` in
`wlarray.rs`: the unpadded byte count (`size`, a `u32`) and the padded
content bytes. -/
structure WlArray where
  size : Nat
  data : List Nat
deriving DecidableEq, Repr

/-- `WlArray::new`: store the input padded with zeros to 4-byte alignment,
with `size` the raw input length (`buffer.len() as u32`). -/
def WlArray.new (buffer : List Nat) : WlArray :=
  { size := buffer.length % 4294967296
    data := buffer ++ List.replicate (roundup_4 buffer.length - buffer.length) 0 }

/-- `WlArray::buffer_size`: length field plus padded content. -/
def WlArray.buffer_size (array : WlArray) : Nat :=
  4 + array.data.length

/-- `WlArray::as_slice`: the first `size` bytes of the stored data
(`&self.data[..self.size as usize]`). -/
def WlArray.as_slice (array : WlArray) : List Nat :=
  array.data.take array.size

/-- `impl TryFrom<&[u8]> for WlArray`: read the 4-byte length field
(`content_len`), demand `4 + roundup_4 content_len` bytes in total
(`total_buffer_len`), and store the padded span of `roundup_4 content_len`
bytes after the length field. -/
def WlArray.tryFrom (buffer : List Nat) : Option WlArray :=
  if buffer.length < 4 then none
  else if buffer.length < 4 + roundup_4 (readU32 buffer) then none
  else some { size := readU32 buffer, data := (buffer.drop 4).take (roundup_4 (readU32 buffer)) }

/-- The fixed 8-byte message header, from `WlMessageHeader` in `message.rs`:
target/source object id (`u32`), opcode (`u16`) and total message size
(`u16`, header plus payload). -/
structure WlMessageHeader where
  object_id : Nat
  opcode : Nat
  size : Nat
deriving DecidableEq, Repr

/-- `impl From<WlMessageHeader> for Vec<u8>`: object id, opcode, size, each
in native byte order. -/
def WlMessageHeader.toBytes (header : WlMessageHeader) : List Nat :=
  u32ToBytes header.object_id ++ u16ToBytes header.opcode ++ u16ToBytes header.size

/-- `impl TryFrom<&[u8]> for WlMessageHeader`: require 8 bytes, then read the
three fixed-width fields. -/
def WlMessageHeader.tryFrom (buf : List Nat) : Option WlMessageHeader :=
  if buf.length < 8 then none
  else some { object_id := readU32 buf, opcode := readU16 (buf.drop 4), size := readU16 (buf.drop 6) }

/-- A complete message, from `WlMessage` in `message.rs`. -/
structure WlMessage where
  header : WlMessageHeader
  data : List Nat
deriving DecidableEq, Repr

/-- `WlMessage::new`: the size field is the payload length plus the 8-byte
header length, cast to `u16`. -/
def WlMessage.new (object_id opcode : Nat) (data : List Nat) : WlMessage :=
  { header := { object_id := object_id, opcode := opcode, size := (data.length + 8) % 65536 }
    data := data }

/-- `impl From<WlMessage> for Vec<u8>`: serialized header followed by the
payload. -/
def WlMessage.toBytes (msg : WlMessage) : List Nat :=
  msg.header.toBytes ++ msg.data

/-- `impl TryFrom<&[u8]> for WlMessage`: require 8 bytes, parse the header,
require the buffer to hold at least the declared size, then keep everything
after the header as the payload (`buf[WL_MESSAGE_HEADER_LEN..].to_vec()`). -/
def WlMessage.tryFrom (buf : List Nat) : Option WlMessage :=
  if buf.length < 8 then none
  else
    match WlMessageHeader.tryFrom (buf.take 8) with
    | none => none
    | some header =>
      if buf.length < header.size then none
      else some { header := header, data := buf.drop 8 }

/-- One call of `WlMessageIter::next`, as a transition on the iterator's
buffer: the returned message (if any) together with the buffer left behind.
The source clears the buffer (`self.buffer.clear()`) both when fewer than 8
bytes are buffered and when the declared size exceeds the buffered amount,
and drains exactly the message's bytes on success. -/
def WlMessageIter.next (buffer : List Nat) : Option WlMessage × List Nat :=
  if buffer.length < 8 then (none, [])
  else
    match WlMessageHeader.tryFrom (buffer.take 8) with
    | none => (none, buffer)
    | some header =>
      if buffer.length < header.size then (none, [])
      else
        match WlMessage.tryFrom (buffer.take header.size) with
        | some message => (some message, buffer.drop header.size)
        | none => (none, [])

/-- The display error codes, from `WlDisplayErrorId` in
`display/event/error.rs`. -/
inductive WlDisplayErrorId
  | invalidObject
  | invalidMethod
  | noMemory
  | implementationError
deriving DecidableEq, Repr

/-- `impl TryFrom<u32> for WlDisplayErrorId`: the four known codes 0-3. -/
def WlDisplayErrorId.tryFrom (value : Nat) : Option WlDisplayErrorId :=
  if value = 0 then some .invalidObject
  else if value = 1 then some .invalidMethod
  else if value = 2 then some .noMemory
  else if value = 3 then some .implementationError
  else none

/-- The decoded fatal error record, from `WlDisplayError` in
`display/event/error.rs`. -/
structure WlDisplayError where
  object_id : Nat
  code : WlDisplayErrorId
  message : WlString
deriving DecidableEq, Repr

/-- `impl TryFrom<&[u8]> for WlDisplayError`.  Note the source reads the raw
code from `buf[0..size_of::<u32>()]` (line 151 of `error.rs`), i.e. from the
object-id field again, not from bytes 4..8 where its own buffer-layout
documentation places the code. -/
def WlDisplayError.tryFrom (buf : List Nat) : Option WlDisplayError :=
  if buf.length < 4 then none
  else
    let object_id := readU32 buf
    if buf.length < 8 then none
    else
      let code_raw := readU32 buf
      match WlDisplayErrorId.tryFrom code_raw with
      | none => none
      | some code =>
        match WlString.tryFrom (buf.drop 8) with
        | none => none
        | some message => some { object_id := object_id, code := code, message := message }

/-- The outcome of an event handler: `Ok(())` or a propagated
`anyhow::Error`. -/
inductive HandlerResult
  | ok
  | err
deriving DecidableEq, Repr

/-- `handle_wl_display_error`: decode failures propagate via `?`, and a
successfully decoded error event is unconditionally answered with `Err`
(the condition is fatal for the connection). -/
def handle_wl_display_error (buf : List Nat) : HandlerResult :=
  match WlDisplayError.tryFrom buf with
  | none => .err
  | some _ => .err

/-- Modelled from the spec: `display/event/delete_id.rs` is not present under
`src/`.  Per the spec's root-session interface events, `DeleteId` decodes one
unsigned 32-bit id and hands it to the caller's free-id tracking, so handling
succeeds exactly when the payload holds the 4-byte id. -/
def handle_wl_display_delete_id (buf : List Nat) : HandlerResult :=
  if buf.length < 4 then .err else .ok

/-- `handle_wl_display_event` in `display/event/mod.rs`: decode the opcode
into the display `Event` enumeration (0 = Error, 1 = DeleteId, otherwise an
error) and route the payload to the matching handler. -/
def handle_wl_display_event (msg : WlMessage) : HandlerResult :=
  if msg.header.opcode = 0 then handle_wl_display_error msg.data
  else if msg.header.opcode = 1 then handle_wl_display_delete_id msg.data
  else .err

/-- The decoded registry Global advertisement, from `WlRegistryGlobal` in
`registry/event/global.rs`. -/
structure WlRegistryGlobal where
  name : Nat
  interface : WlString
  version : Nat
deriving DecidableEq, Repr

/-- `impl TryFrom<&[u8]> for WlRegistryGlobal`: a 32-bit name, then the
interface string decoded from the rest of the buffer, then a 32-bit version
read at offset 4 plus the string's `buffer_len`. -/
def WlRegistryGlobal.tryFrom (buf : List Nat) : Option WlRegistryGlobal :=
  if buf.length < 4 then none
  else
    let name := readU32 buf
    match WlString.tryFrom (buf.drop 4) with
    | none => none
    | some interface =>
      let version_start_pos := 4 + interface.buffer_len
      if buf.length < version_start_pos + 4 then none
      else some { name := name, interface := interface, version := readU32 (buf.drop version_start_pos) }

/-- `handle_wl_registry_global`: decode the advertisement (propagating decode
failures), print it, and succeed. -/
def handle_wl_registry_global (buf : List Nat) : HandlerResult :=
  match WlRegistryGlobal.tryFrom buf with
  | none => .err
  | some _ => .ok

/-- Modelled from the spec: `registry/event/global_remove.rs` is not present
under `src/`.  Per the spec's registry interface events, `GlobalRemove`
decodes one unsigned 32-bit name and surfaces it to the caller, so handling
succeeds exactly when the payload holds the 4-byte name. -/
def handle_wl_registry_global_remove (buf : List Nat) : HandlerResult :=
  if buf.length < 4 then .err else .ok

/-- `handle_wl_registry_event` in `registry/event/mod.rs`: decode the opcode
into the registry `Event` enumeration (0 = Global, 1 = GlobalRemove,
otherwise an error) and route the payload to the matching handler. -/
def handle_wl_registry_event (msg : WlMessage) : HandlerResult :=
  if msg.header.opcode = 0 then handle_wl_registry_global msg.data
  else if msg.header.opcode = 1 then handle_wl_registry_global_remove msg.data
  else .err

/-- The object namespace, from the `WlObjectId` enumeration in
`protocol/mod.rs` (ids 1 through 23). -/
inductive WlObjectId
  | display
  | registry
  | callback
  | compositor
  | shmPool
  | shm
  | buffer
  | dataOffer
  | dataSource
  | dataDevice
  | dataDeviceManager
  | shell
  | shellSurface
  | surface
  | seat
  | pointer
  | keyboard
  | touch
  | output
  | region
  | subCompositor
  | subSurface
  | fixes
deriving DecidableEq, Repr

/-- `impl TryFrom<u32> for WlObjectId`: ids 1..=23 map to the enumeration,
anything else is an error. -/
def WlObjectId.tryFrom (value : Nat) : Option WlObjectId :=
  if value = 1 then some .display
  else if value = 2 then some .registry
  else if value = 3 then some .callback
  else if value = 4 then some .compositor
  else if value = 5 then some .shmPool
  else if value = 6 then some .shm
  else if value = 7 then some .buffer
  else if value = 8 then some .dataOffer
  else if value = 9 then some .dataSource
  else if value = 10 then some .dataDevice
  else if value = 11 then some .dataDeviceManager
  else if value = 12 then some .shell
  else if value = 13 then some .shellSurface
  else if value = 14 then some .surface
  else if value = 15 then some .seat
  else if value = 16 then some .pointer
  else if value = 17 then some .keyboard
  else if value = 18 then some .touch
  else if value = 19 then some .output
  else if value = 20 then some .region
  else if value = 21 then some .subCompositor
  else if value = 22 then some .subSurface
  else if value = 23 then some .fixes
  else none

/-- The observable outcome of dispatching one received event in
`get_registry`'s receive loop: the iteration continues (`ok`), the function
returns an error to its caller (`err`), or the process panics
(`unimplemented!`). -/
inductive DispatchOutcome
  | ok
  | err
  | panic
deriving DecidableEq, Repr

/-- One iteration of the event-routing match in `get_registry`
(`display/request.rs`): `event.header.object_id.try_into()?` turns an unknown
id into a returned error, `Display` and `Registry` events go to their
handlers (whose errors propagate via `?`), and every other recognized id
falls into the `unimplemented!` arm, which panics. -/
def dispatchEvent (event : WlMessage) : DispatchOutcome :=
  match WlObjectId.tryFrom event.header.object_id with
  | none => .err
  | some .display =>
    match handle_wl_display_event event with
    | .ok => .ok
    | .err => .err
  | some .registry =>
    match handle_wl_registry_event event with
    | .ok => .ok
    | .err => .err
  | some _ => .panic

/-- The `get_registry` request message (`display/request.rs`): target
`WlObjectId::Display` (1), opcode `Opcode::GetRegistry` (1), and the
serialized parameter record, which is the new object id's four native-order
bytes. -/
def get_registry_message (new_id : Nat) : WlMessage :=
  WlMessage.new 1 1 (u32ToBytes new_id)

/-- The bytes written to the transport for a `get_registry` request; the
construction is total, so encoding never fails. -/
def get_registry_bytes (new_id : Nat) : List Nat :=
  (get_registry_message new_id).toBytes

/-! ## Helper lemmas -/

/-- `roundup_4` never rounds down. -/
lemma roundup_4_ge (n : Nat) : n ≤ roundup_4 n := by
  unfold roundup_4
  omega

/-- The `size` field established by `WlArray::new`. -/
lemma wlArray_new_size (buffer : List Nat) :
    (WlArray.new buffer).size = buffer.length % 4294967296 := rfl

/-- The stored data of `WlArray::new` has exactly the rounded-up length. -/
lemma wlArray_new_data_len (buffer : List Nat) :
    (WlArray.new buffer).data.length = roundup_4 buffer.length := by
  have := roundup_4_ge buffer.length
  simp only [WlArray.new, List.length_append, List.length_replicate]
  omega

/-- What `as_slice` returns on a freshly constructed array: the first
`length mod 2^32` input bytes. -/
lemma wlArray_new_as_slice_eq (buffer : List Nat) :
    (WlArray.new buffer).as_slice = buffer.take (buffer.length % 4294967296) := by
  have h : buffer.length % 4294967296 ≤ buffer.length := Nat.mod_le _ _
  simp only [WlArray.new, WlArray.as_slice]
  exact List.take_append_of_le_length h

/-- Reading back the four little-endian bytes of a value recovers it modulo
2^32, whatever follows in the buffer. -/
lemma readU32_u32ToBytes (x : Nat) (rest : List Nat) :
    readU32 (u32ToBytes x ++ rest) = x % 4294967296 := by
  simp only [u32ToBytes, List.cons_append, List.nil_append, readU32]
  omega

/-- Parsing the serialized form of a header recovers the header when its
fields are in range; stated over the explicit eight bytes so that the parse
reduces definitionally. -/
lemma header_tryFrom_explicit (e0 e1 e2 e3 e4 e5 e6 e7 : Nat) :
    WlMessageHeader.tryFrom [e0, e1, e2, e3, e4, e5, e6, e7] =
      some { object_id := e0 + 256 * e1 + 65536 * e2 + 16777216 * e3
             opcode := e4 + 256 * e5
             size := e6 + 256 * e7 } := rfl

/-- `WlMessage.tryFrom` on an explicit header-shaped buffer whose declared
size fits in the buffer: the header fields are read back and the payload is
everything after the eighth byte. -/
lemma wlMessage_tryFrom_explicit (e0 e1 e2 e3 e4 e5 e6 e7 : Nat) (p : List Nat)
    (hfit : e6 + 256 * e7 ≤ p.length + 8) :
    WlMessage.tryFrom (e0 :: e1 :: e2 :: e3 :: e4 :: e5 :: e6 :: e7 :: p) =
      some { header := { object_id := e0 + 256 * e1 + 65536 * e2 + 16777216 * e3
                         opcode := e4 + 256 * e5
                         size := e6 + 256 * e7 }
             data := p } := by
  unfold WlMessage.tryFrom
  have hlen : (e0 :: e1 :: e2 :: e3 :: e4 :: e5 :: e6 :: e7 :: p).length = p.length + 8 := by
    simp
  rw [hlen, if_neg (by omega)]
  rw [show (e0 :: e1 :: e2 :: e3 :: e4 :: e5 :: e6 :: e7 :: p).take 8
        = [e0, e1, e2, e3, e4, e5, e6, e7] from rfl]
  rw [header_tryFrom_explicit]
  rw [show (e0 :: e1 :: e2 :: e3 :: e4 :: e5 :: e6 :: e7 :: p).drop 8 = p from rfl] at *
  simp only [hlen]
  rw [if_neg (by omega)]

/-! ## Claims -/

/-- C1: the claim states that `next()` on fewer than 8 buffered bytes (or a
declared length exceeding the buffered amount) returns `None` and leaves the
buffer contents unchanged.  The code instead clears the buffer in both
situations: on the one-byte buffer `[1]` it returns `None` with an empty
buffer left behind, so the single buffered byte is consumed and a message fed
one byte at a time can never be assembled. -/
theorem wlMessageIter_next_discards_partial_buffer :
    WlMessageIter.next [1] = (none, []) ∧
    WlMessageIter.next [1, 0, 0, 0, 0, 0, 12, 0] = (none, []) ∧
    ([] : List Nat) ≠ [1] := by decide

/-- C2: dispatching a root-session Error event whose payload carries object
reference 1, code field 2 and message "oom" (bytes 111,111,109).  The decoded
record's code is `invalidMethod`, not `noMemory`, because the source reads
the raw code from bytes 0..4 (the object-id field) rather than bytes 4..8;
the message does decode as "oom" and the handler does return an error. -/
theorem wlDisplayError_code_read_from_object_id_field :
    (WlDisplayError.tryFrom [1, 0, 0, 0, 2, 0, 0, 0, 4, 0, 0, 0, 111, 111, 109, 0]).map
        (fun e => (e.object_id, e.code, e.message.data))
      = some (1, WlDisplayErrorId.invalidMethod, [111, 111, 109]) ∧
    handle_wl_display_error [1, 0, 0, 0, 2, 0, 0, 0, 4, 0, 0, 0, 111, 111, 109, 0]
      = HandlerResult.err := by decide

/-- C3: the claim states that decoding the encoding of any zero-free text
yields the text back.  The encoder writes the content length without the +1
for the terminator into the length field, so the decoder's terminator scan
(which covers exactly the declared span) never sees the NUL byte and decoding
the encoding fails, here for the text "hi" (bytes 104,105) and for the empty
text. -/
theorem wlString_decode_of_encode_fails :
    WlString.tryFrom (WlString.toBytes (WlString.fromContent [104, 105])) = none ∧
    WlString.tryFrom (WlString.toBytes (WlString.fromContent [])) = none := by decide

/-- C4: the claim states that the encoded length field equals
`content_bytes.len() + 1`.  For the text "hi" (bytes 104,105) the code
produces the length field 2 — the raw content length, without the +1 for the
terminator — followed by content, terminator and zero padding. -/
theorem wlString_encode_len_field_omits_terminator :
    WlString.toBytes (WlString.fromContent [104, 105]) = [2, 0, 0, 0, 104, 105, 0, 0] ∧
    (2 : Nat) ≠ ([104, 105] : List Nat).length + 1 := by decide

/-- C5: the claim states that the decoded payload is exactly bytes `[8, L)`
of the buffer.  On a 12-byte buffer whose header declares total length 8 the
code returns the 4 trailing bytes beyond the declared length as the payload
(`buf[8..]` is kept in full), where the claim requires the empty payload. -/
theorem wlMessage_tryFrom_payload_includes_trailing_bytes :
    (WlMessage.tryFrom [1, 0, 0, 0, 0, 0, 8, 0, 9, 9, 9, 9]).map (fun m => m.data)
      = some [9, 9, 9, 9] ∧
    some ([9, 9, 9, 9] : List Nat) ≠ some ([] : List Nat) := by decide

/-- C6: a message built by `WlMessage.new` from an object id, opcode and a
payload of at most 65527 bytes carries the declared length `8 + payload
length`, and decoding its serialized bytes reproduces the object id, opcode
and payload exactly. -/
theorem wlMessage_new_encode_decode_roundtrip (object_id opcode : Nat) (p : List Nat)
    (h1 : object_id < 4294967296) (h2 : opcode < 65536) (h3 : p.length ≤ 65527) :
    (WlMessage.new object_id opcode p).header.size = 8 + p.length ∧
    WlMessage.tryFrom (WlMessage.new object_id opcode p).toBytes
      = some { header := { object_id := object_id, opcode := opcode, size := 8 + p.length }
               data := p } := by
  have hsz : (p.length + 8) % 65536 = 8 + p.length := by omega
  constructor
  · exact hsz
  · have hbytes : (WlMessage.new object_id opcode p).toBytes
        = object_id % 256 :: object_id / 256 % 256 :: object_id / 65536 % 256
          :: object_id / 16777216 % 256 :: opcode % 256 :: opcode / 256 % 256
          :: (p.length + 8) % 65536 % 256 :: (p.length + 8) % 65536 / 256 % 256 :: p := rfl
    rw [hbytes, wlMessage_tryFrom_explicit _ _ _ _ _ _ _ _ _ (by omega)]
    simp only [Option.some.injEq, WlMessage.mk.injEq, WlMessageHeader.mk.injEq]
    refine ⟨⟨?_, ?_, ?_⟩, trivial⟩ <;> omega

/-- C6 witness: the round-trip theorem applied at object id 1, opcode 1 and
the 4-byte payload `[2,0,0,0]`. -/
theorem wlMessage_new_encode_decode_roundtrip_witness :
    (WlMessage.new 1 1 [2, 0, 0, 0]).header.size = 8 + ([2, 0, 0, 0] : List Nat).length ∧
    WlMessage.tryFrom (WlMessage.new 1 1 [2, 0, 0, 0]).toBytes
      = some { header := { object_id := 1, opcode := 1
                           size := 8 + ([2, 0, 0, 0] : List Nat).length }
               data := [2, 0, 0, 0] } :=
  wlMessage_new_encode_decode_roundtrip 1 1 [2, 0, 0, 0] (by decide) (by decide) (by decide)

/-- C7: decoding a registry Global event laid out with name 1, the interface
string "wl_compositor" (length field 14, 13 content bytes, terminator, two
padding bytes) and version 4 yields the interface content exactly
"wl_compositor" of length 13, for every choice of the two padding bytes. -/
theorem wlRegistryGlobal_decode_interface_independent_of_padding (pad0 pad1 : Nat) :
    (WlRegistryGlobal.tryFrom
        ([1, 0, 0, 0, 14, 0, 0, 0,
          119, 108, 95, 99, 111, 109, 112, 111, 115, 105, 116, 111, 114, 0]
          ++ [pad0, pad1] ++ [4, 0, 0, 0])).map
        (fun g => (g.name, g.interface.data, g.interface.data.length))
      = some (1, [119, 108, 95, 99, 111, 109, 112, 111, 115, 105, 116, 111, 114], 13) := rfl

/-- C9: encoding a GetRegistry request with new object id 2 produces exactly
the 12 bytes: object id 1 (4 bytes), opcode 1 (2 bytes), length 12 (2 bytes)
and new id 2 (4 bytes), little-endian; and the encoding is a total function
whose output always has length 12, so it never fails. -/
theorem get_registry_encoding_exact_bytes :
    get_registry_bytes 2 = [1, 0, 0, 0, 1, 0, 12, 0, 2, 0, 0, 0] ∧
    ∀ new_id : Nat, (get_registry_bytes new_id).length = 12 := by
  refine ⟨rfl, fun new_id => rfl⟩

/-- Ids above the enumerated range 1..=23 are not recognized. -/
lemma wlObjectId_tryFrom_of_ge (v : Nat) (h : 24 ≤ v) : WlObjectId.tryFrom v = none := by
  unfold WlObjectId.tryFrom
  repeat rw [if_neg (by omega)]

/-- Only id 1 maps to the display interface. -/
lemma wlObjectId_tryFrom_eq_display {v : Nat}
    (h : WlObjectId.tryFrom v = some WlObjectId.display) : v = 1 := by
  by_cases hv : v < 24
  · interval_cases v <;> first | rfl | exact absurd h (by decide)
  · rw [wlObjectId_tryFrom_of_ge v (by omega)] at h
    exact Option.noConfusion h

/-- Only id 2 maps to the registry interface. -/
lemma wlObjectId_tryFrom_eq_registry {v : Nat}
    (h : WlObjectId.tryFrom v = some WlObjectId.registry) : v = 2 := by
  by_cases hv : v < 24
  · interval_cases v <;> first | rfl | exact absurd h (by decide)
  · rw [wlObjectId_tryFrom_of_ge v (by omega)] at h
    exact Option.noConfusion h

/-- C8 counterexample: the claim states that dispatching a message whose
object id is neither 1 (display) nor 2 (registry) returns a fatal error to
the caller and never panics.  A message on object id 3 — the reserved
Callback id, which has no dispatch table — falls into the `unimplemented!`
arm of the routing match, which panics instead of returning an error. -/
theorem dispatchEvent_panics_on_callback_id :
    dispatchEvent { header := { object_id := 3, opcode := 0, size := 8 }, data := [] }
      = DispatchOutcome.panic ∧
    DispatchOutcome.panic ≠ DispatchOutcome.err := by decide

/-- C8 as amended: dispatching a message whose object id is neither 1 nor 2
never succeeds silently, but splits in two: an id outside the recognized
range 1..=23 makes the routing return an error to the caller, while a
recognized id without a dispatch table (3..=23) panics via `unimplemented!`
rather than returning. -/
theorem dispatchEvent_unrecognized_errors_unroutable_panics (msg : WlMessage)
    (h1 : msg.header.object_id ≠ 1) (h2 : msg.header.object_id ≠ 2) :
    (WlObjectId.tryFrom msg.header.object_id = none →
      dispatchEvent msg = DispatchOutcome.err) ∧
    (∀ o : WlObjectId, WlObjectId.tryFrom msg.header.object_id = some o →
      dispatchEvent msg = DispatchOutcome.panic) := by
  constructor
  · intro hn
    unfold dispatchEvent
    rw [hn]
  · intro o ho
    unfold dispatchEvent
    rw [ho]
    cases o
    case display => exact absurd (wlObjectId_tryFrom_eq_display ho) h1
    case registry => exact absurd (wlObjectId_tryFrom_eq_registry ho) h2
    all_goals rfl

/-- C8 witness: the amended theorem applied to a message on object id 5 (the
reserved shared-memory-pool id). -/
theorem dispatchEvent_unrecognized_errors_unroutable_panics_witness :
    (WlObjectId.tryFrom
        (WlMessage.mk { object_id := 5, opcode := 0, size := 8 } []).header.object_id = none →
      dispatchEvent { header := { object_id := 5, opcode := 0, size := 8 }, data := [] }
        = DispatchOutcome.err) ∧
    (∀ o : WlObjectId, WlObjectId.tryFrom
        (WlMessage.mk { object_id := 5, opcode := 0, size := 8 } []).header.object_id = some o →
      dispatchEvent { header := { object_id := 5, opcode := 0, size := 8 }, data := [] }
        = DispatchOutcome.panic) :=
  dispatchEvent_unrecognized_errors_unroutable_panics
    { header := { object_id := 5, opcode := 0, size := 8 }, data := [] }
    (by decide) (by decide)

/-- C10 counterexample: the claim states that for every input both
constructors establish `data.len() == roundup_4(size)` and that `as_slice`
returns the original unpadded content.  At an input of 2^32 bytes the
`buffer.len() as u32` cast in `WlArray::new` wraps to 0, so `as_slice`
returns the empty list instead of the original content and `data.len()`
(2^32) differs from `roundup_4(size)` (0). -/
theorem wlArray_new_as_slice_truncates_at_u32_wrap :
    (WlArray.new (List.replicate 4294967296 7)).as_slice = [] ∧
    List.replicate 4294967296 7 ≠ ([] : List Nat) ∧
    (WlArray.new (List.replicate 4294967296 7)).data.length
      ≠ roundup_4 (WlArray.new (List.replicate 4294967296 7)).size := by
  have hsize : (WlArray.new (List.replicate 4294967296 7)).size = 0 := by
    rw [wlArray_new_size, List.length_replicate, Nat.mod_self]
  have hdata : (WlArray.new (List.replicate 4294967296 7)).data.length = 4294967296 := by
    rw [wlArray_new_data_len, List.length_replicate]
    unfold roundup_4
    omega
  refine ⟨?_, ?_, ?_⟩
  · rw [wlArray_new_as_slice_eq, List.length_replicate, Nat.mod_self, List.take_zero]
  · intro hcontra
    have hlen := congrArg List.length hcontra
    rw [List.length_replicate, List.length_nil] at hlen
    omega
  · rw [hdata, hsize]
    unfold roundup_4
    omega

/-- C10 as amended: the in-bounds invariant `size ≤ data.len()` holds for
every input of `WlArray::new`, so `as_slice` never panics; for inputs shorter
than 2^32 bytes (where the `as u32` cast is lossless) `new` moreover
establishes `data.len() = roundup_4(size)` and `as_slice` returns the
original input exactly; and every value produced by `WlArray::try_from`
satisfies `data.len() = roundup_4(size)`, `size ≤ data.len()`, and its
`as_slice` is exactly the unpadded wire content (the `size` bytes following
the length field). -/
theorem wlArray_invariants :
    (∀ buffer : List Nat,
      (WlArray.new buffer).size ≤ (WlArray.new buffer).data.length) ∧
    (∀ buffer : List Nat, buffer.length < 4294967296 →
      (WlArray.new buffer).data.length = roundup_4 (WlArray.new buffer).size ∧
      (WlArray.new buffer).as_slice = buffer) ∧
    (∀ (buffer : List Nat) (a : WlArray), WlArray.tryFrom buffer = some a →
      a.data.length = roundup_4 a.size ∧
      a.size ≤ a.data.length ∧
      a.as_slice = (buffer.drop 4).take a.size) := by
  refine ⟨?_, ?_, ?_⟩
  · intro buffer
    rw [wlArray_new_size, wlArray_new_data_len]
    have := roundup_4_ge buffer.length
    omega
  · intro buffer h
    have hmod : buffer.length % 4294967296 = buffer.length := Nat.mod_eq_of_lt h
    refine ⟨?_, ?_⟩
    · rw [wlArray_new_size, wlArray_new_data_len, hmod]
    · rw [wlArray_new_as_slice_eq, hmod]
      exact List.take_length buffer
  · intro buffer a h
    unfold WlArray.tryFrom at h
    split_ifs at h with h4 h5
    injection h with h
    subst h
    have hge := roundup_4_ge (readU32 buffer)
    have hdroplen : (buffer.drop 4).length = buffer.length - 4 := List.length_drop 4 buffer
    refine ⟨?_, ?_, ?_⟩
    · simp only [List.length_take, hdroplen]
      omega
    · simp only [List.length_take, hdroplen]
      omega
    · simp only [WlArray.as_slice, List.take_take]
      rw [Nat.min_eq_left hge]

/-- C10 witness: the amended theorem applied at the 2-byte input `[5,6]` for
`new` and at the wire buffer `[2,0,0,0,9,9,0,0]` (length field 2, padded
content `[9,9,0,0]`) for `try_from`. -/
theorem wlArray_invariants_witness :
    (WlArray.new [5, 6]).size ≤ (WlArray.new [5, 6]).data.length ∧
    ((WlArray.new [5, 6]).data.length = roundup_4 (WlArray.new [5, 6]).size ∧
      (WlArray.new [5, 6]).as_slice = [5, 6]) ∧
    ((WlArray.mk 2 [9, 9, 0, 0]).data.length = roundup_4 (WlArray.mk 2 [9, 9, 0, 0]).size ∧
      (WlArray.mk 2 [9, 9, 0, 0]).size ≤ (WlArray.mk 2 [9, 9, 0, 0]).data.length ∧
      (WlArray.mk 2 [9, 9, 0, 0]).as_slice
        = (([2, 0, 0, 0, 9, 9, 0, 0] : List Nat).drop 4).take (WlArray.mk 2 [9, 9, 0, 0]).size) :=
  ⟨wlArray_invariants.1 [5, 6],
   wlArray_invariants.2.1 [5, 6] (by decide),
   wlArray_invariants.2.2 [2, 0, 0, 0, 9, 9, 0, 0] (WlArray.mk 2 [9, 9, 0, 0]) (by decide)⟩

end WaylandClient
